import Mathlib

/-!
Verification development for the rag-qa-system retrieval pipeline
(`app/config.py`, `app/core/embeddings.py`, `app/core/vector_store.py`,
`app/core/document_processor.py`).

The Python code is shallowly embedded: pure computations become Lean
functions, remote calls (OpenAI embeddings, the Qdrant client, file
loaders) become explicit parameters or recorded call events, and Python
exceptions become `Except` values.  Python `dict`s are association
lists, Python truthiness-based defaulting (`x or default`) is modelled
explicitly, and Python name resolution is modelled where the source
references a name that is not in scope.
-/

deriving instance DecidableEq for Except

namespace RagQA

/-- Python exceptions that the embedded code can raise. -/
inductive PyErr where
  | valueError : String → PyErr
  | nameError : String → PyErr
  | runtimeError : String → PyErr
deriving DecidableEq

/-- Python values stored in metadata dictionaries and result payloads. -/
inductive Value where
  | s : String → Value
  | n : Nat → Value
  | null : Value
deriving DecidableEq

/-- A Python `dict` with string keys, as an association list. -/
abbrev Dict := List (String × Value)

/-- Python `d[k]` lookup returning `none` when the key is absent. -/
def dictGet (d : Dict) (k : String) : Option Value :=
  match d with
  | [] => none
  | (k', v) :: rest => if k' = k then some v else dictGet rest k

/-- Python `d[k] = v`: overwrite the existing binding or append a new one. -/
def dictSet (d : Dict) (k : String) (v : Value) : Dict :=
  match d with
  | [] => [(k, v)]
  | (k', v') :: rest => if k' = k then (k, v) :: rest else (k', v') :: dictSet rest k v

/-- A langchain `Document`: page content plus a metadata dictionary. -/
structure Document where
  page_content : String
  metadata : Dict
deriving DecidableEq

/-- The fields of `app/config.py`'s `Settings` that the core reads. -/
structure Settings where
  qdrant_collection_name : String
  chunk_size : Int
  chunk_overlap : Int
  retrieval_k : Int
deriving DecidableEq

/-- The defaults declared in `app/config.py`:
`qdrant_collection_name = "rag_qa_collection"`, `chunk_size = 1000`,
`chunk_overlap = 200`, `retrieval_k = 4`. -/
def defaultSettings : Settings :=
  { qdrant_collection_name := "rag_qa_collection"
    chunk_size := 1000
    chunk_overlap := 200
    retrieval_k := 4 }

/-- Python `x or d` for an optional integer argument: `None` and `0` are
falsy and are replaced by the default. -/
def pyOrInt (v : Option Int) (d : Int) : Int :=
  match v with
  | none => d
  | some n => if n = 0 then d else n

/-- Python `x or d` for an optional string argument: `None` and `""` are
falsy and are replaced by the default. -/
def pyOrStr (v : Option String) (d : String) : String :=
  match v with
  | none => d
  | some s => if s = "" then d else s

/-! ## `app/core/embeddings.py`

`EmbeddingService.embed_query` runs

```
embedding_query = self.embeddings.embed_query(text)
logger.debug("Generated embedding of length %d", len(embedding))
return embedding_query
```

and `embed_documents` runs

```
embeddings_document = self.embeddings.embed_documents(texts)
logger.debug("Generated embeddings for %d documents", len(embeddings))
return embeddings_document
```

The log call's argument `len(embedding)` (resp. `len(embeddings)`) is
evaluated eagerly, before any log-level filtering, so Python resolves
the name `embedding` (resp. `embeddings`) against the local scope and
the module globals.  We model that resolution explicitly; the remote
client is a parameter. -/

namespace EmbeddingService

/-- The module-level names defined in `app/core/embeddings.py` by the
time the methods run (imports, `logger`, `get_embeddings`, the class). -/
def moduleGlobals : List String :=
  ["lru_cache", "OpenAIEmbeddings", "get_settings", "get_logger",
   "logger", "get_embeddings", "EmbeddingService"]

/-- Python name resolution for an expression inside a method body:
local scope first, then the module globals. -/
def nameDefined (locals : List String) (n : String) : Bool :=
  locals.contains n || moduleGlobals.contains n

/-- `EmbeddingService.embed_query`.  The remote call is the parameter
`client`; after it returns, the debug log evaluates `len(embedding)`,
which requires the name `embedding` to be defined. -/
def embed_query {α : Type} (client : String → α) (text : String) : Except PyErr α :=
  let embedding_query := client text
  if nameDefined ["self", "text", "embedding_query"] "embedding" then
    Except.ok embedding_query
  else
    Except.error (PyErr.nameError "name 'embedding' is not defined")

/-- `EmbeddingService.embed_documents`.  The remote call is the
parameter `client`; after it returns, the debug log evaluates
`len(embeddings)`, which requires the name `embeddings` to be defined. -/
def embed_documents {α : Type} (client : List String → α) (texts : List String) :
    Except PyErr α :=
  let embeddings_document := client texts
  if nameDefined ["self", "texts", "embeddings_document"] "embeddings" then
    Except.ok embeddings_document
  else
    Except.error (PyErr.nameError "name 'embeddings' is not defined")

/-- What the spec intends `embed_query` to do: return the vector the
remote call produced ("compute once, use that same value for logging
and for the return"). -/
def embed_query_intended {α : Type} (client : String → α) (text : String) :
    Except PyErr α :=
  Except.ok (client text)

end EmbeddingService

/-! ## `app/core/vector_store.py`

`VectorStoreService` owns a Qdrant collection.  The remote Qdrant
backend is modelled as the set of existing collection names; the
qdrant-client call `get_collection` raises `UnexpectedResponse` when
the collection is absent, which `_ensure_collection` catches and
answers with one `create_collection` call using
`VectorParams(size=1536, distance=Distance.COSINE)`. -/

/-- Exceptions raised by the qdrant client: `UnexpectedResponse` (the
one `_ensure_collection` and `get_collection_info` catch) and any
other client exception, which those methods do not catch. -/
inductive QErr where
  | unexpectedResponse : String → QErr
  | other : String → QErr
deriving DecidableEq

/-- The fields of the qdrant `get_collection` reply that the service
reads. -/
structure CollectionInfo where
  points_count : Nat
  status : String
deriving DecidableEq

/-- The remote Qdrant backend state: which collections exist. -/
structure QdrantState where
  collections : List String
deriving DecidableEq

/-- A `client.create_collection` call as issued by
`_ensure_collection`. -/
inductive Distance where
  | cosine
  | euclid
deriving DecidableEq

/-- The arguments of one `create_collection` call. -/
structure CreateCall where
  name : String
  size : Nat
  distance : Distance
deriving DecidableEq

/-- Collection lifecycle states of the spec's machine. -/
inductive CollState where
  | exist
  | absent
deriving DecidableEq

/-- Probing the backend for a collection name. -/
def probe (name : String) (st : QdrantState) : CollState :=
  if name ∈ st.collections then CollState.exist else CollState.absent

namespace VectorStoreService

/-- `VectorStoreService._ensure_collection`: `get_collection` succeeds
when the collection exists (no create call); on `UnexpectedResponse`
(collection absent) one `create_collection` call is issued with vector
size 1536 and cosine distance.  Returns the backend state after the
call and the list of create calls performed. -/
def ensure_collection (name : String) (st : QdrantState) :
    QdrantState × List CreateCall :=
  if name ∈ st.collections then
    (st, [])
  else
    ({ collections := name :: st.collections },
     [{ name := name, size := 1536, distance := Distance.cosine }])

/-- The observable outcome of constructing a `VectorStoreService`. -/
structure InitResult where
  collection_name : String
  state : QdrantState
  creates : List CreateCall
deriving DecidableEq

/-- `VectorStoreService.__init__`: the collection name defaults via
Python `or` to `settings.qdrant_collection_name`, then
`_ensure_collection` runs. -/
def init (s : Settings) (collection_name : Option String) (st : QdrantState) :
    InitResult :=
  let name := pyOrStr collection_name s.qdrant_collection_name
  let ec := ensure_collection name st
  { collection_name := name, state := ec.1, creates := ec.2 }

/-- Log levels of the logging calls the service makes. -/
inductive LogLevel where
  | debug
  | info
  | warning
  | error
deriving DecidableEq

/-- Remote calls performed by `QdrantVectorStore.add_documents`: one
batched embedding call over the chunk texts, then one upsert of the
(identifier, vector, payload) triples. -/
inductive StoreCall where
  | embed : List String → StoreCall
  | upsert : List String → StoreCall
deriving DecidableEq

/-- The observable outcome of one `add_documents` call. -/
structure AddResult where
  ids : List String
  calls : List StoreCall
  log : List LogLevel
deriving DecidableEq

/-- `VectorStoreService.add_documents`.  `uuid4` is modelled as a
generator `gen` applied to successive counter values starting at
`next`; `gen` is injective in the theorems, reflecting uuid4's
uniqueness guarantee.  Empty input: one warning log, no ids, no remote
calls.  Otherwise: one fresh id per document, one batched embed and one
upsert. -/
def add_documents (gen : Nat → String) (next : Nat) (documents : List Document) :
    AddResult :=
  if documents.isEmpty then
    { ids := [], calls := [], log := [LogLevel.warning] }
  else
    let ids := (List.range documents.length).map (fun i => gen (next + i))
    { ids := ids
      calls := [StoreCall.embed (documents.map (fun d => d.page_content)),
                StoreCall.upsert ids]
      log := [LogLevel.info, LogLevel.info] }

/-- The similarity query that `search` / `search_with_scores` send to
the vector store: the query text and the number of neighbours `k`. -/
structure SimilarityQuery where
  query : String
  k : Int
deriving DecidableEq

/-- `VectorStoreService.search`: `k = k or settings.retrieval_k`, then
`similarity_search(query, k=k)`. -/
def search (s : Settings) (query : String) (k : Option Int) : SimilarityQuery :=
  { query := query, k := pyOrInt k s.retrieval_k }

/-- `VectorStoreService.search_with_scores`: same defaulting of `k`,
then `similarity_search_with_score(query, k=k)`. -/
def search_with_scores (s : Settings) (query : String) (k : Option Int) :
    SimilarityQuery :=
  { query := query, k := pyOrInt k s.retrieval_k }

/-- The retriever configuration built by `get_retriever`:
`as_retriever(search_type="similarity", search_kwargs={"k": k})`. -/
structure RetrieverConfig where
  search_type : String
  k : Int
deriving DecidableEq

/-- `VectorStoreService.get_retriever`: same defaulting of `k`. -/
def get_retriever (s : Settings) (k : Option Int) : RetrieverConfig :=
  { search_type := "similarity", k := pyOrInt k s.retrieval_k }

/-- `VectorStoreService.get_collection_info`.  The remote
`get_collection` reply is the parameter `lookupRes`.  On success the
payload is `{name, points_count, status}`; on `UnexpectedResponse` the
degraded payload is returned (note: it carries `error`, not `name`);
any other exception propagates. -/
def get_collection_info (collection_name : String)
    (lookupRes : Except QErr CollectionInfo) : Except QErr Dict :=
  match lookupRes with
  | Except.ok info =>
      Except.ok
        [("name", Value.s collection_name),
         ("points_count", Value.n info.points_count),
         ("status", Value.s info.status)]
  | Except.error (QErr.unexpectedResponse e) =>
      Except.ok
        [("error", Value.s e),
         ("points_count", Value.n 0),
         ("indexed_vectors_count", Value.n 0),
         ("created_at", Value.null),
         ("status", Value.s "Collection does not exist")]
  | Except.error (QErr.other e) => Except.error (QErr.other e)

end VectorStoreService

/-! ## `app/core/document_processor.py`

`DocumentProcessor` defaults its chunk parameters via Python `or`,
then constructs a `RecursiveCharacterTextSplitter`.  The splitter's
base class (`langchain_text_splitters` `TextSplitter.__init__`) raises
`ValueError` when `chunk_overlap > chunk_size` (strictly greater), as
its message "Got a larger chunk overlap ... than chunk size ..."
states; the message is kept without the interpolated numbers.

File loading dispatches on `Path(...).suffix.lower()`.  `pathlib`'s
`suffix` is the final path component's extension: with `i` the index
of the last dot in the name, the suffix is `name[i:]` when
`0 < i < len(name) - 1` and `""` otherwise.  Paths here are plain
file names or slash-separated paths without trailing slashes.
`str.lower` is modelled for ASCII letters. -/

/-- Python `str.lower` on one ASCII character. -/
def asciiLower (c : Char) : Char :=
  if ('A' ≤ c && c ≤ 'Z') then Char.ofNat (c.toNat + 32) else c

/-- Python `str.lower` (ASCII). -/
def lowerStr (s : String) : String :=
  String.mk (s.toList.map asciiLower)

/-- Index of the last `'.'` in a list of characters, if any. -/
def rfindDot : List Char → Option Nat
  | [] => none
  | c :: cs =>
    match rfindDot cs with
    | some i => some (i + 1)
    | none => if c = '.' then some (0 : Nat) else none

/-- `pathlib.Path(s).suffix`: the extension of the last path
component, including the dot; empty when the name has no dot, starts
with its only dot, or ends with its last dot. -/
def pathSuffix (s : String) : String :=
  let n := (s.toList.reverse.takeWhile (fun c => c ≠ '/')).reverse
  match rfindDot n with
  | some i => if 0 < i ∧ i < n.length - 1 then String.mk (n.drop i) else ""
  | none => ""

namespace DocumentProcessor

/-- `DocumentProcessor.SUPPORTED_EXTENSIONS`. -/
def SUPPORTED_EXTENSIONS : List String := [".pdf", ".txt", ".csv"]

/-- The chunking configuration held by a constructed
`DocumentProcessor` (the values passed to the splitter). -/
structure Config where
  chunk_size : Int
  chunk_overlap : Int
deriving DecidableEq

/-- `DocumentProcessor.__init__`: falsy arguments are replaced by the
settings defaults via Python `or`; then the
`RecursiveCharacterTextSplitter` construction raises `ValueError`
when the (effective) overlap strictly exceeds the (effective) size. -/
def init (s : Settings) (chunk_size chunk_overlap : Option Int) :
    Except PyErr Config :=
  let cs := pyOrInt chunk_size s.chunk_size
  let co := pyOrInt chunk_overlap s.chunk_overlap
  if co > cs then
    Except.error (PyErr.valueError
      ("Got a larger chunk overlap than chunk size, should be smaller."))
  else
    Except.ok { chunk_size := cs, chunk_overlap := co }

/-- The format-specific loaders (`PyPDFLoader`, `TextLoader`,
`CSVLoader` wrapped by `load_pdf` / `load_txt` / `load_csv`), as
parameters: each maps a path to documents or to a raised exception. -/
structure Loaders where
  load_pdf : String → Except PyErr (List Document)
  load_txt : String → Except PyErr (List Document)
  load_csv : String → Except PyErr (List Document)

/-- `DocumentProcessor.load_file`: lowercase the path's suffix, raise
`ValueError` when it is unsupported, otherwise dispatch to the loader
for that extension. -/
def load_file (L : Loaders) (file_path : String) : Except PyErr (List Document) :=
  let extension := lowerStr (pathSuffix file_path)
  if extension ∈ SUPPORTED_EXTENSIONS then
    if extension = ".pdf" then L.load_pdf file_path
    else if extension = ".txt" then L.load_txt file_path
    else L.load_csv file_path
  else
    Except.error (PyErr.valueError ("Unsupported file extension: " ++ extension))

/-- `doc.metadata["source"] = filename`. -/
def setSource (filename : String) (doc : Document) : Document :=
  { doc with metadata := dictSet doc.metadata ("source") (Value.s filename) }

/-- Filesystem-visible events of one `load_from_upload` call, in
order: the creation of the named temporary file, the `file.read()`
call on the upload stream, the `load_file` call on the temporary path,
and the `unlink` of the temporary path. -/
inductive Event where
  | mkTemp : String → Event
  | read
  | callLoadFile : String → Event
  | unlink : String → Event
deriving DecidableEq

/-- The observable outcome of one `load_from_upload` call: the return
value or raised exception, the final set of on-disk temporary files,
and the event trace. -/
structure UploadResult where
  result : Except PyErr (List Document)
  disk : List String
  trace : List Event
deriving DecidableEq

/-- `DocumentProcessor.load_from_upload`.  The extension check runs
first; only then does `tempfile.NamedTemporaryFile(delete=False, ...)`
create `tempPath` on disk, after which `file.read()` runs (its result
or raised exception is the parameter `readRes`).  A read failure
propagates out of the `with` block before the `try`/`finally` is
entered, so the temporary file stays on disk.  Otherwise `load_file`
runs on the temporary path under `try`, the `finally` unlinks the
temporary path (`missing_ok=True`), each returned document's `source`
metadata is overwritten with `filename`, and loader exceptions
propagate after the unlink. -/
def load_from_upload (L : Loaders) (tempPath : String)
    (readRes : Except PyErr (List Nat)) (filename : String)
    (d0 : List String) : UploadResult :=
  let extension := lowerStr (pathSuffix filename)
  if extension ∈ SUPPORTED_EXTENSIONS then
    let d1 := tempPath :: d0
    match readRes with
    | Except.error e =>
        { result := Except.error e, disk := d1
          trace := [Event.mkTemp tempPath, Event.read] }
    | Except.ok _bytes =>
        let loaded := load_file L tempPath
        let d2 := d1.erase tempPath
        let tr := [Event.mkTemp tempPath, Event.read,
                   Event.callLoadFile tempPath, Event.unlink tempPath]
        match loaded with
        | Except.ok documents =>
            { result := Except.ok (documents.map (setSource filename))
              disk := d2, trace := tr }
        | Except.error e =>
            { result := Except.error e, disk := d2, trace := tr }
  else
    { result := Except.error
        (PyErr.valueError ("Unsupported file extension: " ++ extension))
      disk := d0, trace := [] }

end DocumentProcessor

/-! ## Concrete instances used to exercise the embedded operations -/

/-- A uuid generator used to instantiate the `add_documents` contract:
distinct counter values give strings of distinct lengths. -/
def genA (n : Nat) : String := String.mk (List.replicate n ('a'))

/-- Loaders that succeed with no documents, for exercising paths whose
loader output is irrelevant. -/
def stubLoaders : DocumentProcessor.Loaders :=
  { load_pdf := fun _ => Except.ok []
    load_txt := fun _ => Except.ok []
    load_csv := fun _ => Except.ok [] }

/-- The three documents a `CSVLoader` produces from a 3-row CSV file at
path `p`: one document per row, `source` set to the loaded path. -/
def csvRows (p : String) : List Document :=
  [{ page_content := "r1", metadata := [("source", Value.s p), ("row", Value.n 0)] },
   { page_content := "r2", metadata := [("source", Value.s p), ("row", Value.n 1)] },
   { page_content := "r3", metadata := [("source", Value.s p), ("row", Value.n 2)] }]

/-- Loaders whose CSV loader yields three rows, as for a 3-row CSV. -/
def csvLoaders : DocumentProcessor.Loaders :=
  { load_pdf := fun _ => Except.ok []
    load_txt := fun _ => Except.ok []
    load_csv := fun p => Except.ok (csvRows p) }

/-- The claim of C4 instantiated at one lookup failure: the degraded
payload would carry `status`, `points_count` and the collection name. -/
def c4ClaimAt (name : String) (e : QErr) : Prop :=
  ∃ d, VectorStoreService.get_collection_info name (Except.error e) =
        Except.ok d ∧
    dictGet d ("status") = some (Value.s "Collection does not exist") ∧
    dictGet d ("points_count") = some (Value.n 0) ∧
    dictGet d ("name") = some (Value.s name)

/-! ## Helper lemmas -/

theorem genA_injective : Function.Injective genA := by
  intro a b h
  have h2 := congrArg String.data h
  simp only [genA] at h2
  simpa using congrArg List.length h2

theorem dictGet_dictSet_self (d : Dict) (k : String) (v : Value) :
    dictGet (dictSet d k v) k = some v := by
  induction d with
  | nil => simp [dictGet, dictSet]
  | cons hd tl ih =>
    obtain ⟨k', v'⟩ := hd
    by_cases h : k' = k
    · simp [dictSet, h, dictGet]
    · simp [dictSet, h, dictGet, ih]

theorem dictGet_dictSet_ne (d : Dict) (k k2 : String) (v : Value)
    (h : k2 ≠ k) :
    dictGet (dictSet d k v) k2 = dictGet d k2 := by
  induction d with
  | nil =>
    simp only [dictSet, dictGet]
    rw [if_neg (fun he => h he.symm)]
  | cons hd tl ih =>
    obtain ⟨k', v'⟩ := hd
    by_cases hk : k' = k
    · subst hk
      simp only [dictSet, if_pos rfl, dictGet]
      rw [if_neg (fun he => h he.symm), if_neg (fun he => h he.symm)]
    · simp only [dictSet, if_neg hk, dictGet]
      by_cases hk2 : k' = k2
      · rw [if_pos hk2, if_pos hk2]
      · rw [if_neg hk2, if_neg hk2, ih]

theorem pyOrInt_ne_zero (v : Option Int) (d : Int) (hd : d ≠ 0) :
    pyOrInt v d ≠ 0 := by
  cases v with
  | none => exact hd
  | some n =>
    by_cases hn : n = 0
    · simp [pyOrInt, hn]
      exact hd
    · simp [pyOrInt, hn]

/-! ## Claims -/

/-- Claim C1: `embed_query` returns the vector produced by the remote
query-embedding call, `embed_documents` returns one vector per input in
order, and neither method fails for any reason other than the remote
call itself failing.  In the code both methods raise `NameError` on
every invocation, because the debug log references the undefined names
`embedding` / `embeddings` instead of the locals `embedding_query` /
`embeddings_document`: for every client and every input, each method
errors instead of returning the intended value. -/
theorem c1_embed_methods_raise_nameError {α β : Type}
    (clientQ : String → α) (clientD : List String → β)
    (text : String) (texts : List String) :
    EmbeddingService.embed_query clientQ text =
      Except.error (PyErr.nameError "name 'embedding' is not defined") ∧
    EmbeddingService.embed_documents clientD texts =
      Except.error (PyErr.nameError "name 'embeddings' is not defined") ∧
    EmbeddingService.embed_query_intended clientQ text = Except.ok (clientQ text) := by
  refine ⟨rfl, rfl, rfl⟩

/-- Claim C2: `add_documents []` returns `[]`, logs only a warning and
performs zero remote calls (no embed, no upsert); on a non-empty list
it returns one freshly minted identifier per chunk, so the returned
list has the input's length and pairwise distinct elements (`uuid4`
modelled as an injective generator). -/
theorem c2_add_documents_contract (gen : Nat → String) (next : Nat)
    (docs : List Document) (hg : Function.Injective gen) (hne : docs ≠ []) :
    VectorStoreService.add_documents gen next [] =
      { ids := [], calls := [], log := [VectorStoreService.LogLevel.warning] } ∧
    (VectorStoreService.add_documents gen next docs).ids.length = docs.length ∧
    (VectorStoreService.add_documents gen next docs).ids.Nodup := by
  refine ⟨rfl, ?_, ?_⟩
  · simp [VectorStoreService.add_documents, hne]
  · have hemp : docs.isEmpty = false := by
      cases docs with
      | nil => exact absurd rfl hne
      | cons a l => rfl
    have hinj : Function.Injective (fun i => gen (next + i)) := by
      intro a b hab
      exact Nat.add_left_cancel (hg hab)
    simp only [VectorStoreService.add_documents, hemp, Bool.false_eq_true,
      if_false]
    exact (List.nodup_range docs.length).map hinj

/-- Witness for C2 at a concrete input: two documents yield two
pairwise distinct identifiers, and the empty input performs no calls. -/
theorem c2_add_documents_contract_witness :
    (VectorStoreService.add_documents genA 0 []).calls = [] ∧
    (VectorStoreService.add_documents genA 0
        [{ page_content := "x", metadata := [] },
         { page_content := "y", metadata := [] }]).ids.length = 2 ∧
    (VectorStoreService.add_documents genA 0
        [{ page_content := "x", metadata := [] },
         { page_content := "y", metadata := [] }]).ids.Nodup := by
  have h := c2_add_documents_contract genA 0
    [{ page_content := "x", metadata := [] },
     { page_content := "y", metadata := [] }]
    genA_injective (List.cons_ne_nil _ _)
  exact ⟨by rw [h.1], h.2.1, h.2.2⟩

/-- Claim C3: construction probes first; when the probe reports the
collection absent, exactly one create call is issued with vector size
1536 and cosine distance and the collection then exists; a second
construction with the same name finds it existing and performs zero
create calls.  The reachable states follow Absent → Exists on create. -/
theorem c3_ensure_collection_machine (s : Settings) (name : String)
    (st : QdrantState) (hname : name ≠ "") (habs : name ∉ st.collections) :
    probe name st = CollState.absent ∧
    (VectorStoreService.init s (some name) st).creates =
      [{ name := name, size := 1536, distance := Distance.cosine }] ∧
    probe name (VectorStoreService.init s (some name) st).state =
      CollState.exist ∧
    (VectorStoreService.init s (some name)
        (VectorStoreService.init s (some name) st).state).creates = [] := by
  refine ⟨?_, ?_, ?_, ?_⟩ <;>
    simp [VectorStoreService.init, VectorStoreService.ensure_collection,
      probe, pyOrStr, hname, habs]

/-- Witness for C3: constructing the service on an empty backend with
the configured collection name creates it once; a second construction
creates nothing. -/
theorem c3_ensure_collection_machine_witness :
    probe "rag_qa_collection" { collections := [] } = CollState.absent ∧
    (VectorStoreService.init defaultSettings (some "rag_qa_collection")
        { collections := [] }).creates =
      [{ name := "rag_qa_collection", size := 1536,
         distance := Distance.cosine }] ∧
    probe "rag_qa_collection"
      (VectorStoreService.init defaultSettings (some "rag_qa_collection")
        { collections := [] }).state = CollState.exist ∧
    (VectorStoreService.init defaultSettings (some "rag_qa_collection")
        (VectorStoreService.init defaultSettings (some "rag_qa_collection")
          { collections := [] }).state).creates = [] :=
  c3_ensure_collection_machine defaultSettings "rag_qa_collection"
    { collections := [] } (by decide) (by simp)

/-- Counterexample to C4: on an `UnexpectedResponse` lookup failure the
degraded payload contains no `name` key (it carries `error` instead),
and a lookup failure that is not an `UnexpectedResponse` propagates as
an exception instead of being converted to a payload. -/
theorem c4_counterexample :
    ¬ c4ClaimAt "rag_qa_collection" (QErr.unexpectedResponse "Not found: 404") ∧
    VectorStoreService.get_collection_info "rag_qa_collection"
        (Except.error (QErr.other "connection timeout")) =
      Except.error (QErr.other "connection timeout") := by
  constructor
  · rintro ⟨d, hd, -, -, hname⟩
    simp only [VectorStoreService.get_collection_info, Except.ok.injEq] at hd
    subst hd
    exact absurd hname (by decide)
  · rfl

/-- Claim C4 (amended): on an `UnexpectedResponse` lookup failure,
`get_collection_info` returns (without raising) the degraded payload
with `status = "Collection does not exist"`, `points_count = 0` and an
`error` message — but no `name` key; on success it returns the
collection's name, points count and status; any other lookup exception
propagates. -/
theorem c4_get_collection_info_amended (name msg emsg : String)
    (info : CollectionInfo) :
    (∀ d, VectorStoreService.get_collection_info name
          (Except.error (QErr.unexpectedResponse msg)) = Except.ok d →
      dictGet d ("status") = some (Value.s "Collection does not exist") ∧
      dictGet d ("points_count") = some (Value.n 0) ∧
      dictGet d ("error") = some (Value.s msg) ∧
      dictGet d ("name") = none) ∧
    VectorStoreService.get_collection_info name (Except.ok info) =
      Except.ok
        [("name", Value.s name),
         ("points_count", Value.n info.points_count),
         ("status", Value.s info.status)] ∧
    VectorStoreService.get_collection_info name
        (Except.error (QErr.other emsg)) =
      Except.error (QErr.other emsg) := by
  refine ⟨?_, rfl, rfl⟩
  intro d hd
  simp only [VectorStoreService.get_collection_info, Except.ok.injEq] at hd
  subst hd
  refine ⟨?_, ?_, ?_, ?_⟩ <;> simp [dictGet]

/-- Witness for C4's amended statement at a concrete input. -/
theorem c4_get_collection_info_amended_witness :
    dictGet
      [("error", Value.s "Not found: 404"),
       ("points_count", Value.n 0),
       ("indexed_vectors_count", Value.n 0),
       ("created_at", Value.null),
       ("status", Value.s "Collection does not exist")] ("name") = none ∧
    VectorStoreService.get_collection_info "rag_qa_collection"
        (Except.ok { points_count := 7, status := "green" }) =
      Except.ok
        [("name", Value.s "rag_qa_collection"),
         ("points_count", Value.n 7),
         ("status", Value.s "green")] := by
  have h := c4_get_collection_info_amended "rag_qa_collection"
    "Not found: 404" "connection timeout" { points_count := 7, status := "green" }
  exact ⟨(h.1 _ rfl).2.2.2, h.2.1⟩

/-- Claim C9: in `search`, `search_with_scores` and `get_retriever`, a
falsy `k` (omitted or `0`) is replaced by the configured default
retrieval width `settings.retrieval_k`; in particular `search(query,
k=0)` requests the default number of neighbours. -/
theorem c9_falsy_k_defaults (s : Settings) (q : String) :
    (VectorStoreService.search s q none).k = s.retrieval_k ∧
    (VectorStoreService.search s q (some 0)).k = s.retrieval_k ∧
    (VectorStoreService.search_with_scores s q none).k = s.retrieval_k ∧
    (VectorStoreService.search_with_scores s q (some 0)).k = s.retrieval_k ∧
    (VectorStoreService.get_retriever s none).k = s.retrieval_k ∧
    (VectorStoreService.get_retriever s (some 0)).k = s.retrieval_k := by
  refine ⟨rfl, ?_, rfl, ?_, rfl, ?_⟩ <;>
    simp [VectorStoreService.search, VectorStoreService.search_with_scores,
      VectorStoreService.get_retriever, pyOrInt]

/-- Counterexample to C5: with the configured defaults, constructing
the processor with `chunk_size=100, chunk_overlap=100` (overlap equal
to size, which the claim says must fail) succeeds, while
`chunk_size=100, chunk_overlap=0` (overlap strictly below size, which
the claim says must succeed) fails, because the falsy `0` is replaced
by the default overlap `200 > 100`. -/
theorem c5_counterexample :
    ((100 : Int) ≤ 100 ∧
      DocumentProcessor.init defaultSettings (some 100) (some 100) =
        Except.ok { chunk_size := 100, chunk_overlap := 100 }) ∧
    ((0 : Int) < 100 ∧
      DocumentProcessor.init defaultSettings (some 100) (some 0) =
        Except.error (PyErr.valueError
          ("Got a larger chunk overlap than chunk size, should be smaller."))) := by
  refine ⟨⟨by norm_num, by decide⟩, ⟨by norm_num, by decide⟩⟩

/-- Claim C5 (amended): construction fails with the splitter's
`ValueError` (the spec's `InvalidConfig`) exactly when the effective
chunk overlap — after falsy arguments are replaced by the settings
defaults — strictly exceeds the effective chunk size; overlap equal to
size is accepted; validation happens at construction time. -/
theorem c5_init_amended (s : Settings) (cs co : Option Int) :
    (pyOrInt co s.chunk_overlap ≤ pyOrInt cs s.chunk_size →
      DocumentProcessor.init s cs co =
        Except.ok { chunk_size := pyOrInt cs s.chunk_size,
                    chunk_overlap := pyOrInt co s.chunk_overlap }) ∧
    (pyOrInt cs s.chunk_size < pyOrInt co s.chunk_overlap →
      DocumentProcessor.init s cs co =
        Except.error (PyErr.valueError
          ("Got a larger chunk overlap than chunk size, should be smaller."))) := by
  constructor
  · intro h
    simp only [DocumentProcessor.init]
    rw [if_neg (by omega)]
  · intro h
    simp only [DocumentProcessor.init]
    rw [if_pos (by omega)]

/-- Witness for C5's amended statement: overlap 200 below size 500 is
accepted; overlap 150 above size 100 is rejected at construction. -/
theorem c5_init_amended_witness :
    DocumentProcessor.init defaultSettings (some 500) (some 200) =
      Except.ok { chunk_size := 500, chunk_overlap := 200 } ∧
    DocumentProcessor.init defaultSettings (some 100) (some 150) =
      Except.error (PyErr.valueError
        ("Got a larger chunk overlap than chunk size, should be smaller.")) := by
  constructor
  · have h := (c5_init_amended defaultSettings (some 500) (some 200)).1 (by decide)
    simpa [pyOrInt] using h
  · have h := (c5_init_amended defaultSettings (some 100) (some 150)).2 (by decide)
    simpa [pyOrInt] using h

/-- Counterexample to C6: when reading the upload stream raises — an
exception propagating out of `load_from_upload` — the temporary file
created just before the read stays on disk: starting from an empty
disk, the call leaves the temporary path behind. -/
theorem c6_counterexample :
    ("/tmp/tmpab12.txt" : String) ∉ ([] : List String) ∧
    "/tmp/tmpab12.txt" ∈
      (DocumentProcessor.load_from_upload stubLoaders "/tmp/tmpab12.txt"
        (Except.error (PyErr.runtimeError ("upload stream read failed")))
        "notes.txt" []).disk := by
  refine ⟨by simp, by decide⟩

/-- Claim C6 (amended): once the upload bytes are read successfully,
the temporary file is removed on every exit path — on successful
return and on loader failure alike; only an exception raised while
reading the upload stream (before the `try`/`finally` is entered)
leaks it. -/
theorem c6_load_from_upload_cleanup (L : DocumentProcessor.Loaders)
    (tempPath : String) (bytes : List Nat) (filename : String)
    (d0 : List String) (h : tempPath ∉ d0) :
    tempPath ∉
      (DocumentProcessor.load_from_upload L tempPath (Except.ok bytes)
        filename d0).disk := by
  simp only [DocumentProcessor.load_from_upload]
  split
  · cases hload : DocumentProcessor.load_file L tempPath with
    | ok docs => simpa [hload, List.erase_cons_head] using h
    | error e => simpa [hload, List.erase_cons_head] using h
  · simpa using h

/-- Witness for C6's amended statement: a successful upload of a CSV
leaves no temporary file behind. -/
theorem c6_load_from_upload_cleanup_witness :
    "/tmp/t.csv" ∉
      (DocumentProcessor.load_from_upload stubLoaders "/tmp/t.csv"
        (Except.ok [1, 2]) "report.csv" []).disk :=
  c6_load_from_upload_cleanup stubLoaders "/tmp/t.csv" [1, 2] "report.csv" []
    (by simp)

/-- Claim C7: a successful `load_from_upload` with logical filename
`f` returns the loader's documents with each document's `source`
metadata overwritten to `f`, and every other metadata entry left
unchanged. -/
theorem c7_source_override (L : DocumentProcessor.Loaders)
    (tempPath : String) (bytes : List Nat) (filename : String)
    (d0 : List String) (docs : List Document)
    (hext : lowerStr (pathSuffix filename) ∈ DocumentProcessor.SUPPORTED_EXTENSIONS)
    (hload : DocumentProcessor.load_file L tempPath = Except.ok docs) :
    (DocumentProcessor.load_from_upload L tempPath (Except.ok bytes)
        filename d0).result =
      Except.ok (docs.map (DocumentProcessor.setSource filename)) ∧
    ∀ doc ∈ docs,
      dictGet (DocumentProcessor.setSource filename doc).metadata ("source") =
        some (Value.s filename) ∧
      ∀ k2, k2 ≠ "source" →
        dictGet (DocumentProcessor.setSource filename doc).metadata k2 =
          dictGet doc.metadata k2 := by
  constructor
  · simp [DocumentProcessor.load_from_upload, hext, hload]
  · intro doc _
    constructor
    · simp [DocumentProcessor.setSource, dictGet_dictSet_self]
    · intro k2 hk2
      simp [DocumentProcessor.setSource, dictGet_dictSet_ne _ _ _ _ hk2]

/-- Witness for C7: a 3-row CSV uploaded as `"report.csv"` yields 3
documents whose `source` is `"report.csv"` (not the temporary path),
with the other loader-set metadata (`row`) unchanged. -/
theorem c7_source_override_witness :
    (DocumentProcessor.load_from_upload csvLoaders "/tmp/up.csv"
        (Except.ok [0]) "report.csv" []).result =
      Except.ok
        ((csvRows "/tmp/up.csv").map (DocumentProcessor.setSource "report.csv")) ∧
    (csvRows "/tmp/up.csv").map (DocumentProcessor.setSource "report.csv") =
      [{ page_content := "r1",
         metadata := [("source", Value.s "report.csv"), ("row", Value.n 0)] },
       { page_content := "r2",
         metadata := [("source", Value.s "report.csv"), ("row", Value.n 1)] },
       { page_content := "r3",
         metadata := [("source", Value.s "report.csv"), ("row", Value.n 2)] }] := by
  have h := c7_source_override csvLoaders "/tmp/up.csv" [0] "report.csv" []
    (csvRows "/tmp/up.csv") (by decide) (by decide)
  exact ⟨h.1, by decide⟩

/-- Claim C8: `DocumentProcessor.__init__` replaces falsy `chunk_size`
and `chunk_overlap` arguments (`0` as well as `None`) with the settings
defaults, `VectorStoreService.__init__` replaces a falsy
`collection_name` (`""` as well as `None`) with the configured
collection name, and consequently — with the configured default
overlap 200 — no constructor argument can produce a processor whose
chunk overlap is zero. -/
theorem c8_falsy_defaults (s : Settings) (cs co : Option Int)
    (st : QdrantState) :
    DocumentProcessor.init s cs (some 0) = DocumentProcessor.init s cs none ∧
    DocumentProcessor.init s (some 0) co = DocumentProcessor.init s none co ∧
    VectorStoreService.init s (some "") st = VectorStoreService.init s none st ∧
    (VectorStoreService.init s (some "") st).collection_name =
      s.qdrant_collection_name ∧
    (∀ cfg, DocumentProcessor.init defaultSettings cs co = Except.ok cfg →
      cfg.chunk_overlap ≠ 0) := by
  refine ⟨rfl, rfl, rfl, rfl, ?_⟩
  intro cfg h
  simp only [DocumentProcessor.init] at h
  split at h
  · exact absurd h (by simp)
  · have hcfg : cfg.chunk_overlap = pyOrInt co defaultSettings.chunk_overlap := by
      cases h
      rfl
    rw [hcfg]
    exact pyOrInt_ne_zero co defaultSettings.chunk_overlap (by decide)

/-- Witness for C8 at a concrete input: a successfully constructed
processor has a non-zero overlap. -/
theorem c8_falsy_defaults_witness :
    ({ chunk_size := 500, chunk_overlap := 7 } : DocumentProcessor.Config).chunk_overlap
      ≠ 0 :=
  (c8_falsy_defaults defaultSettings (some 500) (some 7)
    { collections := [] }).2.2.2.2
    { chunk_size := 500, chunk_overlap := 7 } (by decide)

/-- Claim C10: `load_file` and `load_from_upload` lowercase the
filename's extension before dispatch, so uppercase variants of the
supported extensions are accepted; the unsupported-format error is
raised exactly by the branch whose guard is "lowercased extension not
in {.pdf, .txt, .csv}", each supported lowercased extension dispatches
to its loader, and in `load_from_upload` an unsupported extension is
rejected before any byte is read and before any temporary file is
created. -/
theorem c10_extension_dispatch (L : DocumentProcessor.Loaders)
    (path tempPath : String) (readRes : Except PyErr (List Nat))
    (filename : String) (d0 : List String) :
    (lowerStr (pathSuffix path) ∉ DocumentProcessor.SUPPORTED_EXTENSIONS →
      DocumentProcessor.load_file L path =
        Except.error (PyErr.valueError
          ("Unsupported file extension: " ++ lowerStr (pathSuffix path)))) ∧
    (lowerStr (pathSuffix path) = ".pdf" →
      DocumentProcessor.load_file L path = L.load_pdf path) ∧
    (lowerStr (pathSuffix path) = ".txt" →
      DocumentProcessor.load_file L path = L.load_txt path) ∧
    (lowerStr (pathSuffix path) = ".csv" →
      DocumentProcessor.load_file L path = L.load_csv path) ∧
    (lowerStr (pathSuffix filename) ∉ DocumentProcessor.SUPPORTED_EXTENSIONS →
      (DocumentProcessor.load_from_upload L tempPath readRes filename d0).trace
        = [] ∧
      (DocumentProcessor.load_from_upload L tempPath readRes filename d0).disk
        = d0 ∧
      (DocumentProcessor.load_from_upload L tempPath readRes filename d0).result
        = Except.error (PyErr.valueError
            ("Unsupported file extension: " ++ lowerStr (pathSuffix filename)))) := by
  refine ⟨?_, ?_, ?_, ?_, ?_⟩
  · intro h
    simp only [DocumentProcessor.load_file]
    rw [if_neg h]
  · intro h
    simp only [DocumentProcessor.load_file]
    rw [h, if_pos (by decide), if_pos rfl]
  · intro h
    simp only [DocumentProcessor.load_file]
    rw [h, if_pos (by decide), if_neg (by decide), if_pos rfl]
  · intro h
    simp only [DocumentProcessor.load_file]
    rw [h, if_pos (by decide), if_neg (by decide), if_neg (by decide)]
  · intro h
    refine ⟨?_, ?_, ?_⟩ <;>
      · simp only [DocumentProcessor.load_from_upload]
        rw [if_neg h]

/-- Witness for C10: `"a.xml"` is rejected by `load_file`; the
uppercase `"b.PDF"` dispatches to the PDF loader; an upload named
`"c.Docx"` is rejected with an empty event trace (no read, no
temporary file). -/
theorem c10_extension_dispatch_witness :
    DocumentProcessor.load_file stubLoaders "a.xml" =
      Except.error (PyErr.valueError ("Unsupported file extension: .xml")) ∧
    DocumentProcessor.load_file stubLoaders "b.PDF" =
      stubLoaders.load_pdf "b.PDF" ∧
    (DocumentProcessor.load_from_upload stubLoaders "/tmp/x" (Except.ok [1])
        "c.Docx" ["other"]).trace = [] ∧
    (DocumentProcessor.load_from_upload stubLoaders "/tmp/x" (Except.ok [1])
        "c.Docx" ["other"]).disk = ["other"] := by
  have h1 := (c10_extension_dispatch stubLoaders "a.xml" "/tmp/x"
    (Except.ok [1]) "c.Docx" ["other"]).1 (by decide)
  have h2 := (c10_extension_dispatch stubLoaders "b.PDF" "/tmp/x"
    (Except.ok [1]) "c.Docx" ["other"]).2.1 (by decide)
  have h5 := (c10_extension_dispatch stubLoaders "a.xml" "/tmp/x"
    (Except.ok [1]) "c.Docx" ["other"]).2.2.2.2 (by decide)
  exact ⟨by simpa using h1, h2, h5.1, h5.2.1⟩

end RagQA
